import Mathlib

/-!
Verification of the travel-agent repository against its specification.

The development shallowly embeds the Python sources:
  - `src/agent/tracer.py`       (trace formatter)
  - `src/agent/coordinator.py`  (delegation operations, plan rendering, multi-agent facade)
  - `src/agent/multi_agent.py`  (specialized-agent tool functions)
  - `src/agent/agent.py`        (single-agent tool functions and facade)
  - `src/.history/agent/tools_20250813205701.py` (historical tool revision)

Python dictionaries, lists and scalar values are modelled by the inductive
type `Json`; a Python function that may raise is modelled as returning
`Except String α`, where the `String` is the exception message; external
provider clients (Google Maps, Tavily, the weather HTTP endpoints) are
opaque collaborators and are passed in as `Except`-valued function
arguments.  Exception message texts are kept close to CPython but details
such as the quoting inside `ValueError` messages are abbreviated; no claim
below depends on the exact text of a propagated exception message.
-/

namespace TravelAgentSpec

/-- JSON-like values: the model of Python dicts / lists / scalars that flow
through the agent code.  Numbers are modelled as rationals (covering both
Python `int` and `float` for the values the program manipulates). -/
inductive Json where
  | str (s : String)
  | num (q : Rat)
  | bool (b : Bool)
  | null
  | arr (items : List Json)
  | obj (fields : List (String × Json))
deriving Repr

/-- Python `d.get(k)` on a dict: first binding of the key, if any. -/
def Json.get : Json → String → Option Json
  | .obj fields, k => (fields.find? (fun kv => kv.1 = k)).map Prod.snd
  | _, _ => none

/-- Python `d.get(k, default)`. -/
def Json.getD (j : Json) (k : String) (d : Json) : Json :=
  (j.get k).getD d

/-- Python `k in d` membership test on a dict. -/
def Json.hasKey (j : Json) (k : String) : Bool :=
  (j.get k).isSome

/-- Python truthiness of a value: `None`, `0`, `""`, `[]`, `{}` and `False`
are falsy, everything else is truthy. -/
def Json.truthy : Json → Bool
  | .str s => s ≠ ""
  | .num q => q ≠ 0
  | .bool b => b
  | .null => false
  | .arr items => !items.isEmpty
  | .obj fields => !fields.isEmpty

/-- Python truthiness of an optional value (`None` when absent). -/
def optTruthy : Option Json → Bool
  | none => false
  | some j => j.truthy

/-- Python `str(x)` rendering, used where the code interpolates a value into
an f-string.  Scalars are rendered faithfully; the rendering of nested
containers is a simplified `repr` (no claim depends on it). -/
def Json.toStr : Json → String
  | .str s => s
  | .num q => toString q
  | .bool b => if b then "True" else "False"
  | .null => "None"
  | .arr _ => "[...]"
  | .obj _ => "..."

/-- Python `try: body except Exception as e: handler(e)` where the handler
returns normally: the result can no longer propagate an exception. -/
def pyTry (body : Except String α) (handler : String → α) : α :=
  match body with
  | .ok a => a
  | .error e => handler e

/-- `true` on `Except.ok`, `false` on `Except.error` (a raised exception). -/
def exceptOk : Except String α → Bool
  | .ok _ => true
  | .error _ => false

/-! ## Trace formatter — `src/agent/tracer.py` -/

/-- A recorded message part.  The five constructors mirror the `pydantic_ai`
part classes matched by `convert_to_json`; `other` stands for any part class
outside that set (the `else` branch of the `isinstance` chain). -/
inductive MessagePart where
  | systemPrompt (content : String)
  | toolCall (tool_name : String) (args : Json)
  | text (content : String)
  | userInput (content : String)
  | toolReturn (tool_name : String) (content : Json)
  | other (typeName : String)
deriving Repr

/-- The recognized message-part variants of the trace formatter. -/
def MessagePart.recognized : MessagePart → Bool
  | .other _ => false
  | _ => true

/-- `convert_to_json` from `tracer.py`: recode one message part as a tagged
record, raising `ValueError` on any unknown part type. -/
def convert_to_json : MessagePart → Except String Json
  | .systemPrompt c =>
      .ok (.obj [("system_prompt", .obj [("role", .str "system"), ("content", .str c)])])
  | .toolCall n a =>
      .ok (.obj [("tool_call", .obj [("role", .str "tool"), ("name", .str n), ("arguments", a)])])
  | .text c =>
      .ok (.obj [("text", .obj [("role", .str "user"), ("content", .str c)])])
  | .userInput c =>
      .ok (.obj [("user_input", .obj [("role", .str "user"), ("content", .str c)])])
  | .toolReturn n c =>
      .ok (.obj [("tool_return", .obj [("role", .str "tool"), ("name", .str n), ("content", c)])])
  | .other ty =>
      .error ("Unknown message type: " ++ ty)

/-- One conversation turn (a `ModelRequest`/`ModelResponse` with its parts). -/
structure Turn where
  parts : List MessagePart
deriving Repr

/-- One output span of the trace formatter. -/
structure TraceSpan where
  span_id : Nat
  messages : List Json
deriving Repr

/-- The inner loop of `covert_to_trace`: recode every part of a turn,
propagating the `ValueError` of `convert_to_json`. -/
def convertParts : List MessagePart → Except String (List Json)
  | [] => .ok []
  | p :: ps => do
      let j ← convert_to_json p
      let rest ← convertParts ps
      pure (j :: rest)

/-- The enumerate loop of `covert_to_trace`, carrying the running index. -/
def covertAux (i : Nat) : List Turn → Except String (List TraceSpan)
  | [] => .ok []
  | t :: ts => do
      let ms ← convertParts t.parts
      let rest ← covertAux (i + 1) ts
      pure ({ span_id := i, messages := ms } :: rest)

/-- `covert_to_trace` from `tracer.py`: one span per conversation turn,
`span_id` taken from `enumerate`. -/
def covert_to_trace (messages : List Turn) : Except String (List TraceSpan) :=
  covertAux 0 messages

/-! ## Domain results and delegation — `src/agent/multi_agent.py`, `src/agent/coordinator.py` -/

/-- `FlightResult` from `multi_agent.py`. -/
structure FlightResult where
  origin : String
  destination : String
  departure_date : String
  flights : List Json
  total_duration : String
  estimated_cost : String
deriving Repr

/-- `HotelResult` from `multi_agent.py`. -/
structure HotelResult where
  location : String
  check_in : String
  check_out : String
  hotels : List Json
  price_range : String
deriving Repr

/-- `RestaurantResult` from `multi_agent.py`. -/
structure RestaurantResult where
  location : String
  restaurants : List Json
  cuisine_types : List String
deriving Repr

/-- `ActivityResult` from `multi_agent.py`. -/
structure ActivityResult where
  location : String
  activities : List Json
  categories : List String
deriving Repr

/-- The output of a specialized agent whose declared output type is
`Union[α, Failed]`: either the domain success record or `Failed{reason}`. -/
inductive AgentOut (α : Type) where
  | result (r : α)
  | failed (reason : String)
deriving Repr

/-- Whether the output is the `Failed` variant (`isinstance(output, Failed)`). -/
def AgentOut.isFailed : AgentOut α → Bool
  | .failed _ => true
  | .result _ => false

/-- `model_dump` of `Failed`. -/
def dumpFailed (reason : String) : Json :=
  .obj [("reason", .str reason)]

/-- `model_dump` of `FlightResult`. -/
def FlightResult.dump (r : FlightResult) : Json :=
  .obj [("origin", .str r.origin), ("destination", .str r.destination),
        ("departure_date", .str r.departure_date), ("flights", .arr r.flights),
        ("total_duration", .str r.total_duration), ("estimated_cost", .str r.estimated_cost)]

/-- `model_dump` of `HotelResult`. -/
def HotelResult.dump (r : HotelResult) : Json :=
  .obj [("location", .str r.location), ("check_in", .str r.check_in),
        ("check_out", .str r.check_out), ("hotels", .arr r.hotels),
        ("price_range", .str r.price_range)]

/-- `model_dump` of `RestaurantResult`. -/
def RestaurantResult.dump (r : RestaurantResult) : Json :=
  .obj [("location", .str r.location), ("restaurants", .arr r.restaurants),
        ("cuisine_types", .arr (r.cuisine_types.map Json.str))]

/-- `model_dump` of `ActivityResult`. -/
def ActivityResult.dump (r : ActivityResult) : Json :=
  .obj [("location", .str r.location), ("activities", .arr r.activities),
        ("categories", .arr (r.categories.map Json.str))]

/-- `result.output.model_dump() if hasattr(result.output, 'model_dump') else
str(result.output)`: both variants of a `Union[α, Failed]` output are
pydantic models, so `model_dump` is always taken. -/
def AgentOut.dump (dumpR : α → Json) : AgentOut α → Json
  | .result r => dumpR r
  | .failed reason => dumpFailed reason

/-- The mapping returned by every coordinator delegation tool
(`coordinator.py`): `agent`, `query`, `result`, `success`. -/
structure DelegationRecord where
  agent : String
  query : String
  result : Json
  success : Bool
deriving Repr

/-- `flight_search_delegate` from `coordinator.py`, parameterized by the
(opaque LLM) flight agent's output for the synthesized sub-task. -/
def flight_search_delegate (origin destination _departure_date : String)
    (_return_date : Option String) (output : AgentOut FlightResult) : DelegationRecord :=
  { agent := "flight_agent"
    query := "Flights " ++ origin ++ " → " ++ destination
    result := output.dump FlightResult.dump
    success := !output.isFailed }

/-- `hotel_search_delegate` from `coordinator.py`. -/
def hotel_search_delegate (location _check_in _check_out : String) (_guests : Nat)
    (output : AgentOut HotelResult) : DelegationRecord :=
  { agent := "hotel_agent"
    query := "Hotels in " ++ location
    result := output.dump HotelResult.dump
    success := !output.isFailed }

/-- `restaurant_search_delegate` from `coordinator.py`. -/
def restaurant_search_delegate (location : String) (_cuisine_type _price_range : Option String)
    (output : AgentOut RestaurantResult) : DelegationRecord :=
  { agent := "restaurant_agent"
    query := "Restaurants in " ++ location
    result := output.dump RestaurantResult.dump
    success := !output.isFailed }

/-- `activity_search_delegate` from `coordinator.py`. -/
def activity_search_delegate (location : String) (_activity_type _duration : Option String)
    (output : AgentOut ActivityResult) : DelegationRecord :=
  { agent := "activity_agent"
    query := "Activities in " ++ location
    result := output.dump ActivityResult.dump
    success := !output.isFailed }

/-- `weather_forecast_delegate` from `coordinator.py`.  The weather agent's
declared output type is `Dict[str, Any]` — it has no `Failed` variant — and
the delegate stores the output as-is with `success` hard-coded to `True`. -/
def weather_forecast_delegate (location : String) (_days : Nat)
    (output : Json) : DelegationRecord :=
  { agent := "weather_agent"
    query := "Weather for " ++ location
    result := output
    success := true }

/-! ## Python float parsing for "lat,lng" strings -/

/-- Python `s.split(sep)` for a one-character separator, on the character
list of the string: `""` splits to `[""]`, separators delimit possibly
empty groups. -/
def splitChars (sep : Char) : List Char → List (List Char)
  | [] => [[]]
  | c :: rest =>
      let groups := splitChars sep rest
      if c = sep then [] :: groups
      else
        match groups with
        | [] => [[c]]
        | g :: gs => (c :: g) :: gs

/-- Decimal digit-string value, `none` as soon as a non-digit appears. -/
def digitsToNatAux : List Char → Nat → Option Nat
  | [], acc => some acc
  | c :: rest, acc =>
      if c.isDigit then digitsToNatAux rest (acc * 10 + (c.toNat - 48)) else none

/-- Decimal digit-string value; empty strings have no value. -/
def digitsToNat : List Char → Option Nat
  | [] => none
  | cs => digitsToNatAux cs 0

/-- Python `float(s)` on plain decimal literals (optional sign, digits,
optional fractional part).  Exponent, `inf`/`nan`, underscore and
whitespace forms accepted by CPython are outside the model; every input
rejected here with the conversion `ValueError` is also rejected by CPython
unless it uses one of those forms. -/
def parsePyFloat (s : String) : Except String Rat :=
  let fail : Except String Rat := .error ("could not convert string to float: " ++ s)
  let (neg, body) :=
    match s.data with
    | '-' :: rest => (true, rest)
    | '+' :: rest => (false, rest)
    | cs => (false, cs)
  match splitChars '.' body with
  | [w] =>
      match digitsToNat w with
      | some n => .ok (if neg then -(n : Rat) else (n : Rat))
      | none => fail
  | [w, f] =>
      if w.isEmpty && f.isEmpty then fail
      else
        let wn := if w.isEmpty then some 0 else digitsToNat w
        let fn := if f.isEmpty then some 0 else digitsToNat f
        match wn, fn with
        | some a, some b =>
            let q : Rat := (a : Rat) + (b : Rat) / ((10 : Rat) ^ f.length)
            .ok (if neg then -q else q)
        | _, _ => fail
  | _ => fail

/-- `lat, lng = map(float, location.split(","))`: two comma-separated floats,
raising `ValueError` on a conversion failure or on an unpacking-arity
mismatch (conversions are attempted lazily, in Python's order). -/
def parseLatLng (s : String) : Except String (Rat × Rat) :=
  match splitChars ',' s.data with
  | [a, b] => do
      let lat ← parsePyFloat (String.mk a)
      let lng ← parsePyFloat (String.mk b)
      pure (lat, lng)
  | [a] => do
      let _ ← parsePyFloat (String.mk a)
      .error "not enough values to unpack (expected 2, got 1)"
  | a :: b :: c :: _ => do
      let _ ← parsePyFloat (String.mk a)
      let _ ← parsePyFloat (String.mk b)
      let _ ← parsePyFloat (String.mk c)
      .error "too many values to unpack (expected 2)"
  | [] => .error "not enough values to unpack (expected 2, got 0)"

/-! ## Single-agent tool functions — `src/agent/agent.py`

Each tool is parameterized by the provider client it calls, modelled as an
`Except`-valued function (`Except.error` = the client raised).  Each tool
returns a plain `Json` value: the blanket `try/except Exception` in the
source makes the Python functions total. -/

/-- An HTTP response as seen by `requests.get`: status code and the value
`response.json()` would produce. -/
structure HttpResponse where
  status_code : Nat
  body : Json
deriving Repr

/-- Is the value a mapping with an `error` entry? -/
def isErrorMapping : Json → Bool
  | .obj fields => fields.any (fun kv => kv.1 = "error")
  | _ => false

/-- Does the value contain an `error` key in the sense of the spec: it is a
mapping with an `error` entry, or a list containing one such mapping? -/
def hasErrorKeyValue (j : Json) : Bool :=
  isErrorMapping j ||
    (match j with
     | .arr items => items.any isErrorMapping
     | _ => false)

/-- `geocode_address` from `agent.py`. -/
def geocode_address (gmapsGeocode : String → Except String Json) (address : String) : Json :=
  pyTry (gmapsGeocode address)
    (fun e => .arr [.obj [("error", .str ("Geocoding failed: " ++ e))]])

/-- `reverse_geocode_coordinates` from `agent.py`. -/
def reverse_geocode_coordinates (gmapsReverse : Rat → Rat → Except String Json)
    (latitude longitude : Rat) : Json :=
  pyTry (gmapsReverse latitude longitude)
    (fun e => .arr [.obj [("error", .str ("Reverse geocoding failed: " ++ e))]])

/-- `get_directions` from `agent.py`. -/
def get_directions (gmapsDirections : String → String → String → Except String Json)
    (origin destination mode : String) : Json :=
  pyTry (gmapsDirections origin destination mode)
    (fun e => .arr [.obj [("error", .str ("Directions failed: " ++ e))]])

/-- `get_current_weather` from `agent.py`: GET `currentConditions:lookup`,
return the parsed body on HTTP 200 and the tagged error mapping otherwise;
a raised transport error is caught separately. -/
def get_current_weather (httpGet : Rat → Rat → Except String HttpResponse)
    (latitude longitude : Rat) : Json :=
  pyTry
    (do
      let response ← httpGet latitude longitude
      if response.status_code == 200 then
        pure response.body
      else
        pure (.obj [("error", .str ("Weather API error: " ++ toString response.status_code))]))
    (fun e => .obj [("error", .str ("Weather request failed: " ++ e))])

/-- `get_weather_forecast` from `agent.py`: GET `forecast/days:lookup`. -/
def get_weather_forecast (httpGet : Rat → Rat → Nat → Except String HttpResponse)
    (latitude longitude : Rat) (days : Nat) : Json :=
  pyTry
    (do
      let response ← httpGet latitude longitude days
      if response.status_code == 200 then
        pure response.body
      else
        pure (.obj [("error", .str ("Weather API error: " ++ toString response.status_code))]))
    (fun e => .obj [("error", .str ("Weather forecast failed: " ++ e))])

/-- `get_current_location` from `agent.py`: the client argument covers
`requests.get` plus `raise_for_status` (an HTTP error status raises). -/
def get_current_location (ipLookup : Except String Json) : Json :=
  pyTry ipLookup
    (fun e => .obj [("error", .str ("Could not get current location: " ++ e))])

/-- `search_web` from `agent.py`. -/
def search_web (searchClient : String → Nat → Except String Json)
    (query : String) (num_results : Nat) : Json :=
  pyTry (searchClient query num_results)
    (fun e => .arr [.obj [("error", .str ("Web search failed: " ++ e))]])

/-- `validate_address` from `agent.py`. -/
def validate_address (gmapsValidate : List String → String → Except String Json)
    (addresses : List String) (region_code : String) : Json :=
  pyTry (gmapsValidate addresses region_code)
    (fun e => .obj [("error", .str ("Address validation error: " ++ e))])

/-- `find_places` from `agent.py`.  The places client takes the query and an
optional (coordinates, radius) bias.  Note that the "lat,lng" parse happens
inside the same `try` block as the provider call: its `ValueError` is caught
by the blanket `except Exception` handler. -/
def find_places (places : String → Option ((Rat × Rat) × Nat) → Except String Json)
    (query : String) (location : Option String) (radius : Nat) : Json :=
  pyTry
    (do
      match location with
      | some l =>
          if l ≠ "" then do
            let coords ← parseLatLng l
            let response ← places query (some (coords, radius))
            pure (response.getD "results" (.arr []))
          else do
            let response ← places query none
            pure (response.getD "results" (.arr []))
      | none => do
          let response ← places query none
          pure (response.getD "results" (.arr [])))
    (fun e => .arr [.obj [("error", .str ("Places search failed: " ++ e))]])

/-- `get_places` from the historical revision
`src/.history/agent/tools_20250813205701.py`: same body as `find_places` but
with no `try/except`, so the "lat,lng" parse failure propagates as a raised
`ValueError`. -/
def get_places (places : String → Option ((Rat × Rat) × Nat) → Except String Json)
    (query : String) (location : Option String) (radius : Nat) : Except String Json :=
  match location with
  | some l =>
      if l ≠ "" then do
        let coords ← parseLatLng l
        let response ← places query (some (coords, radius))
        pure (response.getD "results" (.arr []))
      else do
        let response ← places query none
        pure (response.getD "results" (.arr []))
  | none => do
      let response ← places query none
      pure (response.getD "results" (.arr []))

/-! ## Specialized-agent tool functions — `src/agent/multi_agent.py`

The geocode client is modelled as returning the list of result records
already projected to their `geometry.location` coordinates (the provider's
response shape is an opaque collaborator).  These tools have no blanket
`try/except`: a raised client exception propagates, so they return
`Except String Json`. -/

/-- A geocode result record, projected to its coordinates. -/
structure GeoLoc where
  lat : Rat
  lng : Rat
deriving Repr

/-- Python truthiness of an optional string parameter. -/
def optStrTruthy : Option String → Bool
  | none => false
  | some s => s ≠ ""

/-- `None`-or-string value as stored in a result mapping. -/
def optStrJson : Option String → Json
  | none => .null
  | some s => .str s

/-- `hotel_search` from `multi_agent.py`: geocode (unguarded), places scoped
to the coordinates with radius 5000 when geocoding returned results,
`hotels = []` otherwise, then an unguarded web search, combined mapping. -/
def hotel_search (geocode : String → Except String (List GeoLoc))
    (places : String → (Rat × Rat) → Nat → Except String Json)
    (tavily : String → Nat → Except String Json)
    (location check_in check_out : String) (guests : Nat) : Except String Json := do
  let geocode_results ← geocode location
  let hotels ← match geocode_results with
    | g :: _ => do
        let response ← places ("hotels in " ++ location) (g.lat, g.lng) 5000
        pure (response.getD "results" (.arr []))
    | [] => pure (Json.arr [])
  let web_results ← tavily ("best hotels " ++ location ++ " " ++ check_in ++ " " ++
    check_out ++ " booking") 8
  pure (.obj [("location", .str location), ("check_in", .str check_in),
              ("check_out", .str check_out), ("guests", .num (guests : Rat)),
              ("google_places_hotels", hotels), ("web_search_results", web_results)])

/-- `restaurant_search` from `multi_agent.py`. -/
def restaurant_search (geocode : String → Except String (List GeoLoc))
    (places : String → (Rat × Rat) → Nat → Except String Json)
    (tavily : String → Nat → Except String Json)
    (location : String) (cuisine_type price_range : Option String) : Except String Json := do
  let geocode_results ← geocode location
  let restaurants ← match geocode_results with
    | g :: _ => do
        let q := if optStrTruthy cuisine_type then cuisine_type.getD "" ++ " restaurants"
                 else "restaurants"
        let response ← places (q ++ " in " ++ location) (g.lat, g.lng) 5000
        pure (response.getD "results" (.arr []))
    | [] => pure (Json.arr [])
  let sq := "best restaurants " ++ location
  let sq := if optStrTruthy cuisine_type then sq ++ " " ++ cuisine_type.getD "" else sq
  let sq := if optStrTruthy price_range then sq ++ " " ++ price_range.getD "" else sq
  let web_results ← tavily sq 8
  pure (.obj [("location", .str location),
              ("cuisine_type", optStrJson cuisine_type),
              ("price_range", optStrJson price_range),
              ("google_places_restaurants", restaurants),
              ("web_search_results", web_results)])

/-- `activity_search` from `multi_agent.py`: unguarded geocode; two places
queries scoped to the coordinates with radius 8000 when geocoding returned
results, `attractions = []` and `tourist_spots = []` otherwise; unguarded
web search; combined mapping. -/
def activity_search (geocode : String → Except String (List GeoLoc))
    (places : String → (Rat × Rat) → Nat → Except String Json)
    (tavily : String → Nat → Except String Json)
    (location : String) (activity_type duration : Option String) : Except String Json := do
  let geocode_results ← geocode location
  let pair ← match geocode_results with
    | g :: _ => do
        let q := if optStrTruthy activity_type then activity_type.getD "" ++ " attractions"
                 else "attractions"
        let r1 ← places (q ++ " in " ++ location) (g.lat, g.lng) 8000
        let r2 ← places ("tourist attractions " ++ location) (g.lat, g.lng) 8000
        pure (r1.getD "results" (.arr []), r2.getD "results" (.arr []))
    | [] => pure (Json.arr [], Json.arr [])
  let sq := "things to do " ++ location ++ " attractions activities"
  let sq := if optStrTruthy activity_type then sq ++ " " ++ activity_type.getD "" else sq
  let web_results ← tavily sq 10
  pure (.obj [("location", .str location),
              ("activity_type", optStrJson activity_type),
              ("duration", optStrJson duration),
              ("google_places_attractions", pair.1),
              ("google_places_tourist_spots", pair.2),
              ("web_search_results", web_results)])

/-- `weather_forecast` from `multi_agent.py`: unguarded geocode; early
`error` mapping when geocoding finds nothing; both weather HTTP lookups
inside one `try` block, with a non-200 status mapped to the EMPTY dict and
only a raised exception mapped to error mappings; unguarded web search;
combined mapping. -/
def weather_forecast (geocode : String → Except String (List GeoLoc))
    (currentLookup : Rat → Rat → Except String HttpResponse)
    (forecastLookup : Rat → Rat → Nat → Except String HttpResponse)
    (tavily : String → Nat → Except String Json)
    (location : String) (days : Nat) : Except String Json := do
  let geocode_results ← geocode location
  match geocode_results with
  | [] => pure (.obj [("error", .str ("Could not find location: " ++ location))])
  | g :: _ =>
    let weathers := pyTry
      (do
        let current ← currentLookup g.lat g.lng
        let current_weather := if current.status_code == 200 then current.body else Json.obj []
        let forecast ← forecastLookup g.lat g.lng days
        let forecast_weather := if forecast.status_code == 200 then forecast.body else Json.obj []
        pure (current_weather, forecast_weather))
      (fun e => (.obj [("error", .str ("Weather API error: " ++ e))],
                 .obj [("error", .str ("Weather API error: " ++ e))]))
    let weather_search ← tavily ("weather forecast " ++ location ++ " " ++
      toString days ++ " days") 5
    pure (.obj [("location", .str location),
                ("coordinates", .obj [("lat", .num g.lat), ("lng", .num g.lng)]),
                ("current_weather", weathers.1),
                ("forecast", weathers.2),
                ("web_search_weather", weather_search),
                ("days", .num (days : Rat))])

/-! ## Travel-plan rendering — `coordinator.py` (`MultiAgentTravelAgent`) -/

/-- `TravelPlan` from `coordinator.py` (after `model_dump`, the mapping the
formatter reads; optional domain fields hold the delegation mappings). -/
structure TravelPlan where
  query : String
  destination : String
  duration : String
  flight_recommendations : Option Json := none
  hotel_recommendations : Option Json := none
  restaurant_recommendations : Option Json := none
  activity_recommendations : Option Json := none
  weather_forecast : Option Json := none
  daily_itinerary : List Json := []
  total_estimated_cost : Option String := none
deriving Repr

/-- Is the value a Python dict? -/
def Json.isObj : Json → Bool
  | .obj _ => true
  | _ => false

/-- Is the value a Python `str`, `int` (including `bool`) or `float`? -/
def Json.isScalar : Json → Bool
  | .str _ => true
  | .num _ => true
  | .bool _ => true
  | _ => false

/-- Word-wise `str.title()` capitalization: first letter upper, rest lower. -/
def pyCapitalizeWord (w : String) : String :=
  match w.data with
  | [] => ""
  | c :: rest => String.mk (c.toUpper :: rest.map Char.toLower)

/-- `key.replace('_', ' ').title()` as used by `_format_section` on the
underscore-separated alphabetic key names of this code base. -/
def titleKey (k : String) : String :=
  String.intercalate " " (((k.replace "_" " ").split (· = ' ')).map pyCapitalizeWord)

/-- One place record line of `_format_section`:
`- {name} (Rating: {rating})`. -/
def placeLine (item : Json) : String :=
  "- " ++ (item.getD "name" (.str "Unknown")).toStr ++ " (Rating: " ++
    (item.getD "rating" (.str "N/A")).toStr ++ ")\n"

/-- One web-search result line of `_format_section`: a markdown link. -/
def webLine (result : Json) : String :=
  "- [" ++ (result.getD "title" (.str "No title")).toStr ++ "](" ++
    (result.getD "url" (.str "#")).toStr ++ ")\n"

/-- The raw-place-record keys `_format_section` truncates to the top 3. -/
def placeKeys : List String :=
  ["google_places_hotels", "google_places_restaurants", "google_places_attractions"]

/-- The per-key body of the `for key, value in data.items()` loop of
`_format_section`.  Values whose Python type would make the source raise
(e.g. a non-list under a place key, on which `len` or `item.get` fails) are
outside the model and render as the empty string. -/
def renderEntry (k : String) (v : Json) : String :=
  if placeKeys.contains k then
    match v with
    | .arr items =>
        if !items.isEmpty then
          "**" ++ titleKey k ++ ":**\n" ++ String.join ((items.take 3).map placeLine) ++ "\n"
        else ""
    | _ => ""
  else if k = "web_search_results" && v.isObj then
    match v.getD "results" (.arr []) with
    | .arr results =>
        if !results.isEmpty then
          "**Web Search Results:**\n" ++ String.join ((results.take 3).map webLine) ++ "\n"
        else ""
    | _ => ""
  else if v.isScalar && !(k.startsWith "_") then
    "**" ++ titleKey k ++ ":** " ++ v.toStr ++ "\n"
  else ""

/-- `_format_section` from `coordinator.py`. -/
def format_section (data : Json) : String :=
  match data with
  | .obj fields =>
      if (Json.obj fields).hasKey "error" then
        "⚠️ " ++ ((Json.obj fields).getD "error" .null).toStr
      else
        let formatted := String.join (fields.map (fun kv => renderEntry kv.1 kv.2))
        if formatted = "" then (Json.obj fields).toStr else formatted
  | .arr items =>
      String.intercalate "\n" ((items.take 5).map (fun item => "- " ++ item.toStr))
  | other => other.toStr

/-- The shared shape of the five recommendation blocks of
`_format_travel_plan`: skip a falsy field entirely; otherwise emit the
header, then either the agent-provided section or the missing-data note. -/
def recommendationSection (header providedBy missing : String) (field : Option Json) : String :=
  match field with
  | some data =>
      if data.truthy then
        header ++
          (if data.isObj && (data.getD "success" .null).truthy then
            providedBy ++ format_section (data.getD "result" (.obj [])) ++ "\n\n"
          else missing)
      else ""
  | none => ""

/-- The same block as an accumulation step (`md_response += ...`), exactly
as the source appends the header and the body separately. -/
def recommendationStep (md header providedBy missing : String) (field : Option Json) : String :=
  match field with
  | some data =>
      if data.truthy then
        let md2 := md ++ header
        if data.isObj && (data.getD "success" .null).truthy then
          md2 ++ (providedBy ++ format_section (data.getD "result" (.obj [])) ++ "\n\n")
        else md2 ++ missing
      else md
  | none => md

/-- The `enumerate(plan['daily_itinerary'], 1)` loop body of
`_format_travel_plan`. -/
def itineraryDays (i : Nat) : List Json → String
  | [] => ""
  | day :: rest =>
      "### Day " ++ toString i ++ "\n" ++ format_section day ++ "\n\n" ++
        itineraryDays (i + 1) rest

/-- The fixed trip-overview block that opens every report. -/
def overviewSection (p : TravelPlan) : String :=
  "# 🌍 Multi-Agent Travel Plan\n\n## 📋 Trip Overview\n- **Query**: " ++ p.query ++
    "\n- **Destination**: " ++ p.destination ++ "\n- **Duration**: " ++ p.duration ++
    "\n\n---\n\n"

/-- The flight block of the report. -/
def flightSection (p : TravelPlan) : String :=
  recommendationSection "## ✈️ Flight Recommendations\n" "*Provided by Flight Agent*\n\n"
    "*No flight recommendations available*\n\n" p.flight_recommendations

/-- The hotel block of the report. -/
def hotelSection (p : TravelPlan) : String :=
  recommendationSection "## 🏨 Hotel Recommendations\n" "*Provided by Hotel Agent*\n\n"
    "*No hotel recommendations available*\n\n" p.hotel_recommendations

/-- The restaurant block of the report. -/
def restaurantSection (p : TravelPlan) : String :=
  recommendationSection "## 🍽️ Restaurant Recommendations\n" "*Provided by Restaurant Agent*\n\n"
    "*No restaurant recommendations available*\n\n" p.restaurant_recommendations

/-- The activity block of the report. -/
def activitySection (p : TravelPlan) : String :=
  recommendationSection "## 🎯 Activity Recommendations\n" "*Provided by Activity Agent*\n\n"
    "*No activity recommendations available*\n\n" p.activity_recommendations

/-- The weather block of the report. -/
def weatherSection (p : TravelPlan) : String :=
  recommendationSection "## 🌤️ Weather Forecast\n" "*Provided by Weather Agent*\n\n"
    "*No weather information available*\n\n" p.weather_forecast

/-- The day-by-day itinerary block of the report. -/
def itinerarySection (p : TravelPlan) : String :=
  if !p.daily_itinerary.isEmpty then
    "## 📅 Daily Itinerary\n" ++ itineraryDays 1 p.daily_itinerary
  else ""

/-- The estimated-cost block of the report. -/
def costSection (p : TravelPlan) : String :=
  match p.total_estimated_cost with
  | some c => if c ≠ "" then "## 💰 Estimated Total Cost\n" ++ c ++ "\n\n" else ""
  | none => ""

/-- The fixed footer appended to every report. -/
def footerSection : String :=
  "---\n*Generated by Multi-Agent Travel Planning System*\n" ++
    "*🤖 Agents: Flight • Hotel • Restaurant • Activity • Weather • Coordinator*"

/-- `_format_travel_plan` from `coordinator.py`, as the source writes it: a
running `md_response` accumulator appended to block by block. -/
def format_travel_plan (plan : TravelPlan) : String :=
  let md := overviewSection plan
  let md := recommendationStep md "## ✈️ Flight Recommendations\n" "*Provided by Flight Agent*\n\n"
    "*No flight recommendations available*\n\n" plan.flight_recommendations
  let md := recommendationStep md "## 🏨 Hotel Recommendations\n" "*Provided by Hotel Agent*\n\n"
    "*No hotel recommendations available*\n\n" plan.hotel_recommendations
  let md := recommendationStep md "## 🍽️ Restaurant Recommendations\n"
    "*Provided by Restaurant Agent*\n\n" "*No restaurant recommendations available*\n\n"
    plan.restaurant_recommendations
  let md := recommendationStep md "## 🎯 Activity Recommendations\n"
    "*Provided by Activity Agent*\n\n" "*No activity recommendations available*\n\n"
    plan.activity_recommendations
  let md := recommendationStep md "## 🌤️ Weather Forecast\n" "*Provided by Weather Agent*\n\n"
    "*No weather information available*\n\n" plan.weather_forecast
  let md := if !plan.daily_itinerary.isEmpty then
      md ++ "## 📅 Daily Itinerary\n" ++ itineraryDays 1 plan.daily_itinerary
    else md
  let md := match plan.total_estimated_cost with
    | some c => if c ≠ "" then md ++ ("## 💰 Estimated Total Cost\n" ++ c ++ "\n\n") else md
    | none => md
  md ++ "---\n*Generated by Multi-Agent Travel Planning System*\n" ++
    "*🤖 Agents: Flight • Hotel • Restaurant • Activity • Weather • Coordinator*"

/-! ## Facade run operations — `agent.py` and `coordinator.py` -/

/-- The outcome of a successful `agent.run_sync` call in the single-agent
facade: the free-text output and the recorded message history
(`all_messages_json()`). -/
structure AgentRunOutcome where
  output : String
  all_messages : List Json
deriving Repr

/-- `TravelAgent.run` from `agent.py`, parameterized by the outcome of the
opaque `run_sync` call (`Except.error` = any raised exception inside the
`try` block). -/
def TravelAgent.run (runSync : Except String AgentRunOutcome) : String × List Json :=
  match runSync with
  | .ok response => (response.output, response.all_messages)
  | .error e => ("Agent execution failed: " ++ e, [])

/-- The outcome of a successful coordinator `run_sync` call: the structured
`TravelPlan` output (the coordinator's declared `output_type`, so
`model_dump` always exists) and the message history. -/
structure MultiRunOutcome where
  output : TravelPlan
  all_messages : List Json
deriving Repr

/-- `MultiAgentTravelAgent.run` from `coordinator.py`: format the plan on
success; convert any raised exception into an error string and an empty
trace. -/
def MultiAgentTravelAgent.run (runSync : Except String MultiRunOutcome) : String × List Json :=
  match runSync with
  | .ok result => (format_travel_plan result.output, result.all_messages)
  | .error e => ("Error in multi-agent travel planning: " ++ e, [])

/-! ## Observables used by the theorems -/

/-- The tag a message-part variant is recorded under, `none` for variants
outside the recognized set. -/
def MessagePart.expectedTag : MessagePart → Option String
  | .systemPrompt _ => some "system_prompt"
  | .toolCall _ _ => some "tool_call"
  | .text _ => some "text"
  | .userInput _ => some "user_input"
  | .toolReturn _ _ => some "tool_return"
  | .other _ => none

/-- The tag of a returned one-entry tagged record, `none` on a raised error
or any other shape. -/
def resultTag : Except String Json → Option String
  | .ok (.obj [(tag, _)]) => some tag
  | _ => none

/-- The `role` field stored under the given tag of a returned record. -/
def resultRole (r : Except String Json) (tag : String) : Option Json :=
  match r with
  | .ok j => (j.get tag).bind (fun inner => inner.get "role")
  | .error _ => none

/-! ## Claim theorems -/

/-- C1: for every delegation operation of the coordinator and every result
returned by the invoked specialized agent, the produced `DelegationRecord`
has `success == False` iff the agent's result is the `Failed` variant.  The
four `Union[..., Failed]`-typed delegates compute
`success = not isinstance(result.output, Failed)`; the weather delegate
hard-codes `success = True`, and the weather agent's declared output type
`Dict[str, Any]` has no `Failed` variant (modelled by `Json`), so its
biconditional holds with both sides always false. -/
theorem delegation_success_iff_not_failed :
    (∀ (origin destination dd : String) (rd : Option String) (out : AgentOut FlightResult),
      (flight_search_delegate origin destination dd rd out).success = false ↔
        out.isFailed = true) ∧
    (∀ (location ci co : String) (guests : Nat) (out : AgentOut HotelResult),
      (hotel_search_delegate location ci co guests out).success = false ↔
        out.isFailed = true) ∧
    (∀ (location : String) (ct pr : Option String) (out : AgentOut RestaurantResult),
      (restaurant_search_delegate location ct pr out).success = false ↔
        out.isFailed = true) ∧
    (∀ (location : String) (ty du : Option String) (out : AgentOut ActivityResult),
      (activity_search_delegate location ty du out).success = false ↔
        out.isFailed = true) ∧
    (∀ (location : String) (days : Nat) (out : Json),
      (weather_forecast_delegate location days out).success = true) := by
  refine ⟨?_, ?_, ?_, ?_, ?_⟩ <;> intros
  case _ out => cases out <;> simp [flight_search_delegate, AgentOut.isFailed]
  case _ out => cases out <;> simp [hotel_search_delegate, AgentOut.isFailed]
  case _ out => cases out <;> simp [restaurant_search_delegate, AgentOut.isFailed]
  case _ out => cases out <;> simp [activity_search_delegate, AgentOut.isFailed]
  case _ => rfl

/-- C3: the trace formatter's part conversion returns a tagged record
without raising exactly on the five recognized variants, and raises
(`ValueError`) on every other variant instead of dropping it. -/
theorem convert_to_json_recognized_total :
    ∀ p : MessagePart,
      exceptOk (convert_to_json p) = p.recognized ∧
        resultTag (convert_to_json p) = p.expectedTag := by
  intro p
  cases p <;> exact ⟨rfl, rfl⟩

/-- C10 (implicit): a model-generated `TextPart` is recorded under the tag
`text` with role label `"user"` — the same role label given to genuine user
input — so the serialized trace does not distinguish the two by role. -/
theorem text_part_role_is_user :
    ∀ c u : String,
      convert_to_json (.text c) =
        .ok (.obj [("text", .obj [("role", .str "user"), ("content", .str c)])]) ∧
      resultRole (convert_to_json (.text c)) "text" = some (.str "user") ∧
      resultRole (convert_to_json (.userInput u)) "user_input" = some (.str "user") := by
  intro c u
  exact ⟨rfl, rfl, rfl⟩

/-- C8: both facade run operations are total (any exception raised inside
the run is caught): on a raised exception they return a human-readable
error string paired with the empty trace, and on success they return the
response output (formatted, for the multi-agent plan) paired with the run's
message history. -/
theorem facade_run_catches_exceptions :
    (∀ r, TravelAgent.run (.ok r) = (r.output, r.all_messages)) ∧
    (∀ e, TravelAgent.run (.error e) = ("Agent execution failed: " ++ e, [])) ∧
    (∀ r, MultiAgentTravelAgent.run (.ok r) = (format_travel_plan r.output, r.all_messages)) ∧
    (∀ e, MultiAgentTravelAgent.run (.error e) =
      ("Error in multi-agent travel planning: " ++ e, [])) :=
  ⟨fun _ => rfl, fun _ => rfl, fun _ => rfl, fun _ => rfl⟩

/-- A recognized part converts without raising. -/
theorem convert_ok_of_recognized (p : MessagePart) (h : p.recognized = true) :
    ∃ j, convert_to_json p = .ok j := by
  cases p <;> simp_all [MessagePart.recognized, convert_to_json]

/-- A turn of recognized parts converts without raising. -/
theorem convertParts_ok (ps : List MessagePart) (h : ∀ p ∈ ps, p.recognized = true) :
    ∃ js, convertParts ps = .ok js := by
  induction ps with
  | nil => exact ⟨[], rfl⟩
  | cons p ps ih =>
      obtain ⟨j, hj⟩ := convert_ok_of_recognized p (h p (by simp))
      obtain ⟨js, hjs⟩ := ih (fun q hq => h q (by simp [hq]))
      exact ⟨j :: js, by simp only [convertParts, hj, hjs]; rfl⟩

/-- The enumerate loop yields one span per turn, with `span_id` equal to the
start index plus the position. -/
theorem covertAux_ok (msgs : List Turn) (i : Nat)
    (h : ∀ t ∈ msgs, ∀ p ∈ t.parts, p.recognized = true) :
    ∃ spans, covertAux i msgs = .ok spans ∧ spans.length = msgs.length ∧
      ∀ k (hk : k < spans.length), (spans.get ⟨k, hk⟩).span_id = i + k := by
  induction msgs generalizing i with
  | nil => exact ⟨[], rfl, rfl, fun k hk => absurd hk (by simp)⟩
  | cons t ts ih =>
      obtain ⟨ms, hms⟩ := convertParts_ok t.parts (h t (by simp))
      obtain ⟨spans, hs, hlen, hid⟩ := ih (i + 1) (fun u hu => h u (by simp [hu]))
      refine ⟨{ span_id := i, messages := ms } :: spans, ?_, by simp [hlen], ?_⟩
      · simp only [covertAux, hms, hs]; rfl
      · intro k hk
        cases k with
        | zero => simp
        | succ k =>
            have hk' : k < spans.length := by simpa using hk
            show (spans.get ⟨k, hk'⟩).span_id = i + (k + 1)
            rw [hid k hk']
            omega

/-- C2: for every ordered sequence of conversation turns whose parts are all
recognized, the trace formatter outputs exactly one span per input turn and
the `span_id` fields are the strictly increasing sequence 0, 1, 2, ... in
output order. -/
theorem trace_span_count_and_ids (msgs : List Turn)
    (h : ∀ t ∈ msgs, ∀ p ∈ t.parts, p.recognized = true) :
    ∃ spans, covert_to_trace msgs = .ok spans ∧ spans.length = msgs.length ∧
      ∀ k (hk : k < spans.length), (spans.get ⟨k, hk⟩).span_id = k := by
  obtain ⟨spans, hs, hlen, hid⟩ := covertAux_ok msgs 0 h
  exact ⟨spans, hs, hlen, fun k hk => by simpa using hid k hk⟩

/-- A two-turn conversation used to instantiate the C2 theorem. -/
def demoTurns : List Turn :=
  [{ parts := [.systemPrompt "You are a travel agent", .userInput "Plan a trip"] },
   { parts := [.toolCall "search_web" (.obj []), .toolReturn "search_web" (.arr []),
               .text "Here is a plan"] }]

/-- Witness for C2 at a concrete two-turn conversation. -/
theorem trace_span_count_and_ids_witness :
    ∃ spans, covert_to_trace demoTurns = .ok spans ∧ spans.length = demoTurns.length ∧
      ∀ k (hk : k < spans.length), (spans.get ⟨k, hk⟩).span_id = k :=
  trace_span_count_and_ids demoTurns (by
    intro t ht p hp
    simp only [demoTurns, List.mem_cons, List.not_mem_nil, or_false] at ht
    rcases ht with rfl | rfl <;> simp_all [MessagePart.recognized] <;>
      rcases hp with rfl | rfl | rfl <;> rfl)

/-- Monadic bind on a successful `Except` computation. -/
theorem exceptOkBind (a : α) (f : α → Except String β) : (Except.ok a >>= f) = f a := rfl

/-- `pyTry` returns the body's value when no exception is raised. -/
theorem pyTry_ok (a : α) (h : String → α) : pyTry (.ok a) h = a := rfl

/-- `pyTry` applies the handler to a raised exception. -/
theorem pyTry_error (e : String) (h : String → α) : pyTry (.error e) h = h e := rfl

/-- `pure` in the `Except` monad is `Except.ok`. -/
theorem exceptPure (a : α) : (pure a : Except String α) = .ok a := rfl

/-- Monadic bind on a raised exception: the exception propagates. -/
theorem exceptErrorBind (e : String) (f : α → Except String β) :
    ((Except.error e : Except String α) >>= f) = Except.error e := rfl

/-- C4 counterexample: the claim quantifies over every tool function, but
`hotel_search` in `multi_agent.py` calls `gmaps.geocode` outside any
`try/except`; a raised provider exception propagates to the caller instead
of being converted into an `error`-keyed value. -/
theorem hotel_search_propagates_geocode_exception :
    hotel_search (fun _ => .error "boom") (fun _ _ _ => .ok (.obj []))
      (fun _ _ => .ok (.obj [])) "Paris" "2024-06-01" "2024-06-05" 2 =
      .error "boom" ∧
    exceptOk (hotel_search (fun _ => .error "boom") (fun _ _ _ => .ok (.obj []))
      (fun _ _ => .ok (.obj [])) "Paris" "2024-06-01" "2024-06-05" 2) = false :=
  ⟨rfl, rfl⟩

/-- C4 amended: restricted to the tool functions of the single-agent facade
(`agent.py`), which wrap their whole body in `try/except Exception`: for
every provider-call failure the tool returns a value containing an `error`
key, and — each tool being a total function into `Json` — never propagates
the exception.  (The multi-agent tools guard only some steps; see the
counterexample.) -/
theorem single_agent_tools_error_keyed :
    (∀ (g : String → Except String Json) (address e : String),
      g address = .error e → hasErrorKeyValue (geocode_address g address) = true) ∧
    (∀ (g : Rat → Rat → Except String Json) (la lo : Rat) (e : String),
      g la lo = .error e → hasErrorKeyValue (reverse_geocode_coordinates g la lo) = true) ∧
    (∀ (g : String → String → String → Except String Json) (o d m e : String),
      g o d m = .error e → hasErrorKeyValue (get_directions g o d m) = true) ∧
    (∀ (hg : Rat → Rat → Except String HttpResponse) (la lo : Rat) (e : String),
      hg la lo = .error e → hasErrorKeyValue (get_current_weather hg la lo) = true) ∧
    (∀ (hg : Rat → Rat → Nat → Except String HttpResponse) (la lo : Rat) (d : Nat) (e : String),
      hg la lo d = .error e → hasErrorKeyValue (get_weather_forecast hg la lo d) = true) ∧
    (∀ e : String, hasErrorKeyValue (get_current_location (.error e)) = true) ∧
    (∀ (g : String → Nat → Except String Json) (q : String) (n : Nat) (e : String),
      g q n = .error e → hasErrorKeyValue (search_web g q n) = true) ∧
    (∀ (g : List String → String → Except String Json) (addrs : List String) (rc e : String),
      g addrs rc = .error e → hasErrorKeyValue (validate_address g addrs rc) = true) ∧
    (∀ (pl : String → Option ((Rat × Rat) × Nat) → Except String Json)
        (q : String) (loc : Option String) (rad : Nat) (e : String),
      (∀ x y, pl x y = .error e) → hasErrorKeyValue (find_places pl q loc rad) = true) := by
  refine ⟨?_, ?_, ?_, ?_, ?_, ?_, ?_, ?_, ?_⟩
  · intro g a e h
    simp [geocode_address, pyTry, h, hasErrorKeyValue, isErrorMapping]
  · intro g la lo e h
    simp [reverse_geocode_coordinates, pyTry, h, hasErrorKeyValue, isErrorMapping]
  · intro g o d m e h
    simp [get_directions, pyTry, h, hasErrorKeyValue, isErrorMapping]
  · intro hg la lo e h
    simp [get_current_weather, pyTry, h, exceptErrorBind, hasErrorKeyValue, isErrorMapping]
  · intro hg la lo d e h
    simp [get_weather_forecast, pyTry, h, exceptErrorBind, hasErrorKeyValue, isErrorMapping]
  · intro e
    simp [get_current_location, pyTry, hasErrorKeyValue, isErrorMapping]
  · intro g q n e h
    simp [search_web, pyTry, h, hasErrorKeyValue, isErrorMapping]
  · intro g addrs rc e h
    simp [validate_address, pyTry, h, hasErrorKeyValue, isErrorMapping]
  · intro pl q loc rad e h
    match loc with
    | none =>
        simp [find_places, pyTry, h, exceptErrorBind, hasErrorKeyValue, isErrorMapping]
    | some l =>
        by_cases hl : l = ""
        · simp [find_places, hl, pyTry, h, exceptErrorBind, hasErrorKeyValue, isErrorMapping]
        · match hp : parseLatLng l with
          | .error m =>
              simp [find_places, hl, hp, pyTry, exceptErrorBind,
                hasErrorKeyValue, isErrorMapping]
          | .ok c =>
              simp [find_places, hl, hp, pyTry, h, exceptOkBind, exceptErrorBind,
                hasErrorKeyValue, isErrorMapping]

/-- Witness for the amended C4 at concrete failing clients. -/
theorem single_agent_tools_error_keyed_witness :
    hasErrorKeyValue (geocode_address (fun _ => .error "down") "Paris") = true ∧
    hasErrorKeyValue (reverse_geocode_coordinates (fun _ _ => .error "down") 48 2) = true ∧
    hasErrorKeyValue (get_directions (fun _ _ _ => .error "down") "Paris" "Lyon" "driving")
      = true ∧
    hasErrorKeyValue (get_current_weather (fun _ _ => .error "down") 48 2) = true ∧
    hasErrorKeyValue (get_weather_forecast (fun _ _ _ => .error "down") 48 2 7) = true ∧
    hasErrorKeyValue (get_current_location (.error "down")) = true ∧
    hasErrorKeyValue (search_web (fun _ _ => .error "down") "hotels" 5) = true ∧
    hasErrorKeyValue (validate_address (fun _ _ => .error "down") ["1 Main St"] "US") = true ∧
    hasErrorKeyValue (find_places (fun _ _ => .error "down") "museums" (some "1,2") 5000)
      = true :=
  ⟨single_agent_tools_error_keyed.1 _ "Paris" "down" rfl,
   single_agent_tools_error_keyed.2.1 _ 48 2 "down" rfl,
   single_agent_tools_error_keyed.2.2.1 _ "Paris" "Lyon" "driving" "down" rfl,
   single_agent_tools_error_keyed.2.2.2.1 _ 48 2 "down" rfl,
   single_agent_tools_error_keyed.2.2.2.2.1 _ 48 2 7 "down" rfl,
   single_agent_tools_error_keyed.2.2.2.2.2.1 "down",
   single_agent_tools_error_keyed.2.2.2.2.2.2.1 _ "hotels" 5 "down" rfl,
   single_agent_tools_error_keyed.2.2.2.2.2.2.2.1 _ ["1 Main St"] "US" "down" rfl,
   single_agent_tools_error_keyed.2.2.2.2.2.2.2.2 _ "museums" (some "1,2") 5000 "down"
     (fun _ _ => rfl)⟩

/-- C5 counterexample: in the current `find_places` the "lat,lng" parse sits
inside the blanket `try/except`, so a malformed location string does not
surface as a distinct caller-input error: it is swallowed into the very
same ordinary provider-error shape that a failing places client produces
(second conjunct). -/
theorem find_places_swallows_malformed_location :
    find_places (fun _ _ => .ok (.obj [])) "museums" (some "abc") 5000 =
      .arr [.obj [("error", .str "Places search failed: could not convert string to float: abc")]] ∧
    find_places (fun _ _ => .error "connection reset") "museums" (some "1,2") 5000 =
      .arr [.obj [("error", .str "Places search failed: connection reset")]] :=
  ⟨rfl, rfl⟩

/-- C5 amended: for every malformed "lat,lng" location string, the current
`find_places` catches the parse `ValueError` and returns the ordinary
provider-error record `[{error: "Places search failed: <msg>"}]`; only the
superseded historical revision `get_places` (cited by the claim) propagates
the parse failure as a hard caller-input error. -/
theorem find_places_malformed_location_amended :
    ∀ (pl : String → Option ((Rat × Rat) × Nat) → Except String Json)
      (q loc : String) (rad : Nat) (m : String),
      loc ≠ "" → parseLatLng loc = .error m →
      find_places pl q (some loc) rad =
        .arr [.obj [("error", .str ("Places search failed: " ++ m))]] ∧
      get_places pl q (some loc) rad = .error m := by
  intro pl q loc rad m hne hp
  constructor
  · simp [find_places, hne, hp, pyTry, exceptErrorBind]
  · simp [get_places, hne, hp, exceptErrorBind]

/-- Witness for the amended C5 at the concrete malformed location "abc". -/
theorem find_places_malformed_location_amended_witness :
    find_places (fun _ _ => .ok (.obj [("results", .arr [])])) "cafes" (some "abc") 5000 =
      .arr [.obj [("error", .str "Places search failed: could not convert string to float: abc")]] ∧
    get_places (fun _ _ => .ok (.obj [("results", .arr [])])) "cafes" (some "abc") 5000 =
      .error "could not convert string to float: abc" :=
  find_places_malformed_location_amended _ "cafes" "abc" 5000
    "could not convert string to float: abc" (by decide) rfl

/-- C6 counterexample: in `weather_forecast` of `multi_agent.py` (cited by
the claim) a non-200 status on either lookup yields the EMPTY mapping in
the combined result, not the mapping with an error entry
`Weather API error: <status>`. -/
theorem multi_weather_nonstatus_to_empty :
    weather_forecast (fun _ => .ok [⟨48, 2⟩]) (fun _ _ => .ok ⟨500, .str "cbody"⟩)
      (fun _ _ _ => .ok ⟨500, .str "fbody"⟩) (fun _ _ => .ok (.arr [])) "Paris" 7 =
      .ok (.obj [("location", .str "Paris"),
                 ("coordinates", .obj [("lat", .num 48), ("lng", .num 2)]),
                 ("current_weather", .obj []), ("forecast", .obj []),
                 ("web_search_weather", .arr []), ("days", .num ((7 : Nat) : Rat))]) ∧
    (Json.obj []) ≠ .obj [("error", .str "Weather API error: 500")] :=
  ⟨rfl, by simp⟩

/-- C6 amended: the exact status contract holds for the single-agent weather
tools `get_current_weather` and `get_weather_forecast` in `agent.py`: on an
HTTP 200 response the parsed body is returned unchanged, and on any other
status exactly the mapping with the `error` entry
`Weather API error: <status>` is returned (the multi-agent
`weather_forecast` instead maps non-200 responses to the empty dict; see
the counterexample). -/
theorem weather_status_mapping_single_agent :
    (∀ (hg : Rat → Rat → Except String HttpResponse) (la lo : Rat) (r : HttpResponse),
      hg la lo = .ok r →
      (r.status_code = 200 → get_current_weather hg la lo = r.body) ∧
      (r.status_code ≠ 200 → get_current_weather hg la lo =
        .obj [("error", .str ("Weather API error: " ++ toString r.status_code))])) ∧
    (∀ (hg : Rat → Rat → Nat → Except String HttpResponse) (la lo : Rat) (d : Nat)
        (r : HttpResponse),
      hg la lo d = .ok r →
      (r.status_code = 200 → get_weather_forecast hg la lo d = r.body) ∧
      (r.status_code ≠ 200 → get_weather_forecast hg la lo d =
        .obj [("error", .str ("Weather API error: " ++ toString r.status_code))])) := by
  constructor
  · intro hg la lo r h
    constructor
    · intro h200
      simp [get_current_weather, pyTry, h, exceptOkBind, exceptPure, h200]
    · intro hne
      simp [get_current_weather, pyTry, h, exceptOkBind, exceptPure, hne]
  · intro hg la lo d r h
    constructor
    · intro h200
      simp [get_weather_forecast, pyTry, h, exceptOkBind, exceptPure, h200]
    · intro hne
      simp [get_weather_forecast, pyTry, h, exceptOkBind, exceptPure, hne]

/-- Witness for the amended C6 at concrete 200 and non-200 responses. -/
theorem weather_status_mapping_single_agent_witness :
    get_current_weather (fun _ _ => .ok ⟨200, .str "sunny"⟩) 48 2 = .str "sunny" ∧
    get_current_weather (fun _ _ => .ok ⟨404, .str "x"⟩) 48 2 =
      .obj [("error", .str "Weather API error: 404")] ∧
    get_weather_forecast (fun _ _ _ => .ok ⟨200, .str "warm"⟩) 48 2 7 = .str "warm" ∧
    get_weather_forecast (fun _ _ _ => .ok ⟨500, .str "y"⟩) 48 2 7 =
      .obj [("error", .str "Weather API error: 500")] :=
  ⟨(weather_status_mapping_single_agent.1 _ 48 2 ⟨200, .str "sunny"⟩ rfl).1 rfl,
   (weather_status_mapping_single_agent.1 _ 48 2 ⟨404, .str "x"⟩ rfl).2 (by decide),
   (weather_status_mapping_single_agent.2 _ 48 2 7 ⟨200, .str "warm"⟩ rfl).1 rfl,
   (weather_status_mapping_single_agent.2 _ 48 2 7 ⟨500, .str "y"⟩ rfl).2 (by decide)⟩

/-- C7 counterexample: the claim quantifies over every specialized-agent
tool whose initial geocoding step yields no results, but `weather_forecast`
in `multi_agent.py` aborts early on an empty geocode: it returns only
`error: Could not find location: <location>` — not the combined mapping —
and never performs its web-search step, as the second conjunct shows: the
result is unchanged even when the web-search client would raise. -/
theorem weather_forecast_aborts_on_empty_geocode :
    weather_forecast (fun _ => .ok []) (fun _ _ => .ok ⟨200, .str "c"⟩)
      (fun _ _ _ => .ok ⟨200, .str "f"⟩) (fun _ _ => .ok (.arr [])) "Atlantis" 7 =
      .ok (.obj [("error", .str "Could not find location: Atlantis")]) ∧
    weather_forecast (fun _ => .ok []) (fun _ _ => .ok ⟨200, .str "c"⟩)
      (fun _ _ _ => .ok ⟨200, .str "f"⟩) (fun _ _ => .error "tavily down") "Atlantis" 7 =
      .ok (.obj [("error", .str "Could not find location: Atlantis")]) :=
  ⟨rfl, rfl⟩

/-- C7 amended: restricted to the three places-based specialized-agent
tools.  When geocoding yields no results, `hotel_search`,
`restaurant_search` and `activity_search` do not abort: every
places-derived field becomes the empty list, the web-search step is still
performed, and the combined mapping is returned (whether that partial data
warrants `Failed` is left to the agent's reasoning step, outside these tool
functions).  `weather_forecast` is the exception: on an empty geocode it
returns the `Could not find location` error mapping early, for any
web-search client (last conjunct). -/
theorem geocode_empty_places_tools_amended :
    (∀ (geocode : String → Except String (List GeoLoc))
        (places : String → (Rat × Rat) → Nat → Except String Json)
        (tavily : String → Nat → Except String Json)
        (loc ci co : String) (g : Nat) (w : Json),
      geocode loc = .ok [] →
      tavily ("best hotels " ++ loc ++ " " ++ ci ++ " " ++ co ++ " booking") 8 = .ok w →
      hotel_search geocode places tavily loc ci co g =
        .ok (.obj [("location", .str loc), ("check_in", .str ci), ("check_out", .str co),
                   ("guests", .num (g : Rat)), ("google_places_hotels", .arr []),
                   ("web_search_results", w)])) ∧
    (∀ (geocode : String → Except String (List GeoLoc))
        (places : String → (Rat × Rat) → Nat → Except String Json)
        (tavily : String → Nat → Except String Json)
        (loc : String) (ct pr : Option String) (w : Json),
      geocode loc = .ok [] →
      (∀ s n, tavily s n = .ok w) →
      restaurant_search geocode places tavily loc ct pr =
        .ok (.obj [("location", .str loc), ("cuisine_type", optStrJson ct),
                   ("price_range", optStrJson pr), ("google_places_restaurants", .arr []),
                   ("web_search_results", w)])) ∧
    (∀ (geocode : String → Except String (List GeoLoc))
        (places : String → (Rat × Rat) → Nat → Except String Json)
        (tavily : String → Nat → Except String Json)
        (loc : String) (ty du : Option String) (w : Json),
      geocode loc = .ok [] →
      (∀ s n, tavily s n = .ok w) →
      activity_search geocode places tavily loc ty du =
        .ok (.obj [("location", .str loc), ("activity_type", optStrJson ty),
                   ("duration", optStrJson du), ("google_places_attractions", .arr []),
                   ("google_places_tourist_spots", .arr []),
                   ("web_search_results", w)])) ∧
    (∀ (geocode : String → Except String (List GeoLoc))
        (currentLookup : Rat → Rat → Except String HttpResponse)
        (forecastLookup : Rat → Rat → Nat → Except String HttpResponse)
        (tavily : String → Nat → Except String Json)
        (loc : String) (d : Nat),
      geocode loc = .ok [] →
      weather_forecast geocode currentLookup forecastLookup tavily loc d =
        .ok (.obj [("error", .str ("Could not find location: " ++ loc))])) := by
  refine ⟨?_, ?_, ?_, ?_⟩
  · intro geocode places tavily loc ci co g w h1 h2
    simp [hotel_search, h1, h2, exceptOkBind]
  · intro geocode places tavily loc ct pr w h1 h2
    simp [restaurant_search, h1, h2, exceptOkBind]
  · intro geocode places tavily loc ty du w h1 h2
    simp [activity_search, h1, h2, exceptOkBind]
  · intro geocode currentLookup forecastLookup tavily loc d h1
    simp [weather_forecast, h1, exceptOkBind, exceptPure]

/-- Witness for the amended C7 at concrete clients with an empty geocode
result. -/
theorem geocode_empty_places_tools_amended_witness :
    hotel_search (fun _ => .ok []) (fun _ _ _ => .ok (.obj []))
      (fun _ _ => .ok (.arr [.str "r"])) "Atlantis" "2024-06-01" "2024-06-05" 2 =
      .ok (.obj [("location", .str "Atlantis"), ("check_in", .str "2024-06-01"),
                 ("check_out", .str "2024-06-05"), ("guests", .num ((2 : Nat) : Rat)),
                 ("google_places_hotels", .arr []),
                 ("web_search_results", .arr [.str "r"])]) ∧
    restaurant_search (fun _ => .ok []) (fun _ _ _ => .ok (.obj []))
      (fun _ _ => .ok (.arr [.str "r"])) "Atlantis" none none =
      .ok (.obj [("location", .str "Atlantis"), ("cuisine_type", optStrJson none),
                 ("price_range", optStrJson none), ("google_places_restaurants", .arr []),
                 ("web_search_results", .arr [.str "r"])]) ∧
    activity_search (fun _ => .ok []) (fun _ _ _ => .ok (.obj []))
      (fun _ _ => .ok (.arr [.str "r"])) "Atlantis" none none =
      .ok (.obj [("location", .str "Atlantis"), ("activity_type", optStrJson none),
                 ("duration", optStrJson none), ("google_places_attractions", .arr []),
                 ("google_places_tourist_spots", .arr []),
                 ("web_search_results", .arr [.str "r"])]) ∧
    weather_forecast (fun _ => .ok []) (fun _ _ => .ok ⟨200, .str "c"⟩)
      (fun _ _ _ => .ok ⟨200, .str "f"⟩) (fun _ _ => .ok (.arr [])) "Nowhere" 7 =
      .ok (.obj [("error", .str "Could not find location: Nowhere")]) :=
  ⟨geocode_empty_places_tools_amended.1 _ _ _ "Atlantis" "2024-06-01" "2024-06-05" 2
      (.arr [.str "r"]) rfl rfl,
   geocode_empty_places_tools_amended.2.1 _ _ _ "Atlantis" none none (.arr [.str "r"]) rfl
      (fun _ _ => rfl),
   geocode_empty_places_tools_amended.2.2.1 _ _ _ "Atlantis" none none (.arr [.str "r"]) rfl
      (fun _ _ => rfl),
   geocode_empty_places_tools_amended.2.2.2 _ _ _ _ "Nowhere" 7 rfl⟩

/-- The accumulated recommendation block equals the accumulator followed by
the standalone section. -/
theorem recommendationStep_eq (md header pb m : String) (f : Option Json) :
    recommendationStep md header pb m f = md ++ recommendationSection header pb m f := by
  cases f with
  | none => simp [recommendationStep, recommendationSection, String.append_empty]
  | some d =>
      simp only [recommendationStep, recommendationSection]
      by_cases ht : d.truthy
      · simp only [ht, if_true]
        by_cases hs : (d.isObj && (d.getD "success" .null).truthy) = true
        · simp [hs, String.append_assoc]
        · simp [hs, String.append_assoc]
      · simp [ht, String.append_empty]

/-- Taking the first three elements of a list does not change whether it is
empty. -/
theorem take3_isEmpty (l : List α) : (l.take 3).isEmpty = l.isEmpty := by
  cases l <;> rfl

/-- C9: `_format_travel_plan` renders exactly the fixed section order
overview, flights, hotels, restaurants, activities, weather, itinerary,
cost, footer (conditionally empty sections included at their place), and
`_format_section` shows at most the top 3 raw place records and at most
the top 3 web-search results no matter how many the plan contains. -/
theorem plan_sections_order_and_truncation :
    (∀ p : TravelPlan,
      format_travel_plan p =
        overviewSection p ++ flightSection p ++ hotelSection p ++ restaurantSection p ++
          activitySection p ++ weatherSection p ++ itinerarySection p ++ costSection p ++
          footerSection) ∧
    (∀ l : List Json,
      format_section (.obj [("google_places_hotels", .arr l)]) =
        format_section (.obj [("google_places_hotels", .arr (l.take 3))])) ∧
    (∀ l : List Json,
      format_section (.obj [("google_places_restaurants", .arr l)]) =
        format_section (.obj [("google_places_restaurants", .arr (l.take 3))])) ∧
    (∀ l : List Json,
      format_section (.obj [("google_places_attractions", .arr l)]) =
        format_section (.obj [("google_places_attractions", .arr (l.take 3))])) ∧
    (∀ l : List Json,
      format_section (.obj [("web_search_results", .obj [("results", .arr l)])]) =
        format_section (.obj [("web_search_results", .obj [("results", .arr (l.take 3))])])) := by
  refine ⟨?_, ?_, ?_, ?_, ?_⟩
  · intro p
    simp only [format_travel_plan, recommendationStep_eq, flightSection, hotelSection,
      restaurantSection, activitySection, weatherSection, itinerarySection, costSection,
      footerSection]
    by_cases hit : p.daily_itinerary.isEmpty
    · cases hc : p.total_estimated_cost with
      | none => simp [hit, hc, String.append_assoc, String.append_empty]
      | some c =>
          by_cases hce : c = ""
          · simp [hit, hc, hce, String.append_assoc, String.append_empty]
          · simp [hit, hc, hce, String.append_assoc, String.append_empty]
    · cases hc : p.total_estimated_cost with
      | none => simp [hit, hc, String.append_assoc, String.append_empty]
      | some c =>
          by_cases hce : c = ""
          · simp [hit, hc, hce, String.append_assoc, String.append_empty]
          · simp [hit, hc, hce, String.append_assoc, String.append_empty]
  · intro l
    have hre : renderEntry "google_places_hotels" (.arr l) =
        renderEntry "google_places_hotels" (.arr (l.take 3)) := by
      simp [renderEntry, placeKeys, List.take_take, take3_isEmpty]
      rw [take3_isEmpty]
    simp [format_section, Json.hasKey, Json.get, Json.getD, Json.toStr, hre]
  · intro l
    have hre : renderEntry "google_places_restaurants" (.arr l) =
        renderEntry "google_places_restaurants" (.arr (l.take 3)) := by
      simp [renderEntry, placeKeys, List.take_take, take3_isEmpty]
      rw [take3_isEmpty]
    simp [format_section, Json.hasKey, Json.get, Json.getD, Json.toStr, hre]
  · intro l
    have hre : renderEntry "google_places_attractions" (.arr l) =
        renderEntry "google_places_attractions" (.arr (l.take 3)) := by
      simp [renderEntry, placeKeys, List.take_take, take3_isEmpty]
      rw [take3_isEmpty]
    simp [format_section, Json.hasKey, Json.get, Json.getD, Json.toStr, hre]
  · intro l
    have hre : renderEntry "web_search_results" (.obj [("results", .arr l)]) =
        renderEntry "web_search_results" (.obj [("results", .arr (l.take 3))]) := by
      simp [renderEntry, placeKeys, Json.isObj, Json.getD, Json.get,
        List.take_take, take3_isEmpty]
      rw [take3_isEmpty]
    simp [format_section, Json.hasKey, Json.get, Json.getD, Json.toStr, hre]

end TravelAgentSpec
